import Mathlib

/-!
Verification development for the streaming/non-streaming chat orchestration
layer of `src/chatbot/main.py` (FastAPI application).

The definitions below are a shallow embedding of the Python source.  Instants
are modelled as `Nat`, the capability cache (`streaming_support_cache` in the
source, a dict keyed by endpoint name) as an association list, and each
client-facing Server-Sent Event as a constructor of the `Event` type.
Code of the repository that lives outside `src/` (the `utils` package and the
streaming handlers) is modelled from the specification where a claim needs it;
every such definition is marked `Modelled from the spec:` in its doc comment.
-/

namespace Chatbot

/-- A capability-cache entry: the per-endpoint record stored in
`streaming_support_cache['endpoints'][name]` in the source, holding
`supports_streaming`, `supports_trace` and `last_checked`. -/
structure CapEntry where
  supports_streaming : Bool
  supports_trace : Bool
  last_checked : Nat
deriving DecidableEq, Repr

/-- The capability cache `streaming_support_cache['endpoints']`: a Python dict
from endpoint name to entry, embedded as an association list. -/
abbrev Cache := List (String × CapEntry)

/-- Dict lookup `cache['endpoints'].get(name)`. -/
def lookupEntry (cache : Cache) (name : String) : Option CapEntry :=
  (cache.find? (fun p => p.1 = name)).map (fun p => p.2)

/-- Dict membership test `name in cache['endpoints']`. -/
def cacheContains (cache : Cache) (name : String) : Bool :=
  cache.any (fun p => p.1 = name)

/-- Dict assignment `cache['endpoints'][name] = e`: replace in place when the
key is present, append otherwise. -/
def setEntry (cache : Cache) (name : String) (e : CapEntry) : Cache :=
  if cacheContains cache name then
    cache.map (fun p => if p.1 = name then (p.1, e) else p)
  else
    cache ++ [(name, e)]

/-- The downgrade performed in `chat.generate`'s except-clause
(`src/chatbot/main.py` lines 179-183): only when the endpoint name is already a
key of the cache, its entry is updated with `supports_streaming = False` and
`last_checked = now`; when the key is absent nothing is stored. -/
def downgradeCache (cache : Cache) (name : String) (now : Nat) : Cache :=
  if cacheContains cache name then
    cache.map (fun p =>
      if p.1 = name then
        (p.1, { p.2 with supports_streaming := false, last_checked := now })
      else p)
  else
    cache

/-- Modelled from the spec: `check_endpoint_capabilities` lives in the `utils`
package, which is not under `src/`.  Per spec section 4.1, the query is
freshness-gated: a fresh entry answers from the cache; on a missing or stale
entry the endpoint is probed and the probe result (defaulting to
`(false, false)` on probe failure) is stored with `last_checked = now`.
Returns the updated cache together with `(supports_streaming, supports_trace)`. -/
def check_endpoint_capabilities (cache : Cache) (name : String) (now window : Nat)
    (probe : Option (Bool × Bool)) : Cache × Bool × Bool :=
  match lookupEntry cache name with
  | some e =>
      if now - e.last_checked < window then
        (cache, e.supports_streaming, e.supports_trace)
      else
        let r := probe.getD (false, false)
        (setEntry cache name ⟨r.1, r.2, now⟩, r.1, r.2)
  | none =>
      let r := probe.getD (false, false)
      (setEntry cache name ⟨r.1, r.2, now⟩, r.1, r.2)

/-- The fallback URL built in `chat.generate`'s except-clause
(`src/chatbot/main.py` line 187): `url = URL+"?nocache={uuid.uuid4()}"`.
The Python string literal has no `f` prefix, so `\x7buuid.uuid4()\x7d` is
literal text; the random draw `r` (the `uuid.uuid4()` the comment above the
line intends to interpolate) does not enter the URL. -/
def fallbackUrl (baseUrl : String) (r : Nat) : String :=
  baseUrl ++ "?nocache=\x7buuid.uuid4()\x7d"

/-- A Python exception value as far as the chat endpoint's handler inspects it:
whether it is an `httpx.HTTPStatusError`, its response status code, and the
text `str(e)`. -/
structure PyExc where
  isHTTPStatusError : Bool
  status_code : Nat
  text : String
deriving DecidableEq, Repr

/-- The rate-limit string assigned at `src/chatbot/main.py` line 207. -/
def rateLimitText : String :=
  "The service is currently experiencing high demand. Please wait a moment and try again."

/-- The error content emitted by the chat endpoint's except-clause
(`src/chatbot/main.py` lines 204-213).  The source first assigns the
rate-limit string to `error_message` when the exception is an
`httpx.HTTPStatusError` with status 429, then unconditionally rebinds
`error_message` to the generic error message, so the content passed to
`create_error_message` is the generic text in every case. -/
def chatErrorContent (e : PyExc) : String :=
  let error_message :=
    if e.isHTTPStatusError && e.status_code == 429 then rateLimitText else ""
  let error_message := "An error occurred while processing your request. " ++ e.text
  error_message

/-- An HTTP exception as raised by `HTTPException(status_code=..., detail=...)`. -/
structure HTTPError where
  status_code : Nat
  detail : String
deriving DecidableEq, Repr

/-- Python `str(e)` for a (FastAPI/Starlette) `HTTPException`:
`f"\x7bstatus_code\x7d: \x7bdetail\x7d"`. -/
def httpErrorStr (e : HTTPError) : String :=
  toString e.status_code ++ ": " ++ e.detail

/-- The `rate_message` endpoint (`src/chatbot/main.py` lines 365-385) as a
function of the storage result: the try-body raises `HTTPException(404, ...)`
when `update_message_rating` returns false, and the surrounding
`except Exception` clause catches that exception (FastAPI's `HTTPException`
subclasses `Exception`) and re-raises `HTTPException(500, ...)` whose detail
appends `str(e)`. -/
def rate_message (update_success : Bool) (message_id rating : String) :
    Except HTTPError (String × String) :=
  let body : Except HTTPError (String × String) :=
    if update_success then
      Except.ok ("success", rating)
    else
      Except.error ⟨404, "Message " ++ message_id ++ " not found"⟩
  match body with
  | Except.ok r => Except.ok r
  | Except.error e =>
      Except.error ⟨500, "An error occurred while rating the message. " ++ httpErrorStr e⟩

/-- A stored chat message as the orchestrator reads it from the session
history (the dict entries produced by the storage collaborator): `message_id`,
`role`, `content` and an optional `timestamp` (`msg.get('timestamp')` may be
absent). -/
structure Msg where
  message_id : String
  role : String
  content : String
  timestamp : Option String
deriving DecidableEq, Repr

/-- One client-facing Server-Sent Event: either a `data:` event carrying a
JSON-encoded message, or the terminal `event: done` event. -/
inductive Event where
  | data (payload : String)
  | done
deriving DecidableEq, Repr

/-- Number of terminal `event: done` events in a stream. -/
def countDone (l : List Event) : Nat :=
  l.count Event.done

/-- A stream terminates correctly when it ends with exactly one
`event: done` event. -/
abbrev terminatesOnce (l : List Event) : Prop :=
  countDone l = 1 ∧ l.getLast? = some Event.done

/-- One `{"role": r, "content": c}` element of the downstream `messages`
array, as a role/content pair. -/
abbrev PayloadMsg := String × String

/-- The `messages` array the regeneration endpoint builds
(`src/chatbot/main.py` lines 299-305): the truncated history minus its last
element, mapped to role/content pairs when `include_history` is set, followed
by `{"role": "user", "content": history_up_to_message[-1]["content"]}`.
Python's `history_up_to_message[-1]` raises `IndexError` when the truncated
history is empty, embedded here as the `Except.error` case. -/
def regenRequestMessages (history_up_to_message : List Msg) (include_history : Bool) :
    Except String (List PayloadMsg) :=
  match history_up_to_message.getLast? with
  | none => Except.error "IndexError: list index out of range"
  | some last =>
      Except.ok
        ((if include_history then
            history_up_to_message.dropLast.map (fun m => (m.role, m.content))
          else []) ++ [("user", last.content)])

/-- The index lookup of the regeneration target
(`src/chatbot/main.py` lines 278-282): first index whose `message_id` matches. -/
def messageIndex (chat_history : List Msg) (message_id : String) : Option Nat :=
  chat_history.findIdx? (fun m => m.message_id = message_id)

/-- The `original_timestamp` computed at `src/chatbot/main.py` lines 289-291:
the target message's timestamp, or `datetime.now().isoformat()` when absent. -/
def regenOriginalTimestamp (original_message : Msg) (nowIso : String) : String :=
  original_message.timestamp.getD nowIso

/-- Modelled from the spec: `handle_streaming_regeneration` and
`handle_non_streaming_regeneration` live in the `utils` streaming handler,
which is not under `src/`.  Per spec section 4.5 (regeneration variant), the
regenerated assistant message is persisted at the original message's position
with the original message's timestamp; `regenerate_message` passes the target's
`message_id` and the computed `original_timestamp` to the handler. -/
def persistRegeneratedMessage (message_id content original_timestamp : String) : Msg :=
  { message_id := message_id
    role := "assistant"
    content := content
    timestamp := some original_timestamp }

/-- Outcome of the streaming attempt inside `chat.generate`: either the
stream opens with status 200 and transcoding runs to completion yielding the
handler's events, or the attempt fails (non-200 open status, read timeout or
transport error) after having yielded a prefix of events. -/
inductive StreamAttempt where
  | ok (events : List Event)
  | failed (preFailEvents : List Event)
deriving DecidableEq, Repr

/-- The body of `chat.generate` (`src/chatbot/main.py` lines 122-192) as a
function from the capability-cache state and the turn's scenario to the final
cache state and the emitted event sequence.  When the capability check reports
no streaming support, the non-streaming handler's events are yielded.
Otherwise the streaming attempt runs; on failure the except-clause downgrades
the cache entry (lines 179-183) and yields the fallback non-streaming
handler's events after whatever the failed attempt already yielded. -/
def chatGenerateRun (cache : Cache) (name : String) (now window : Nat)
    (probe : Option (Bool × Bool)) (attempt : StreamAttempt)
    (nonstreamEvents fallbackEvents : List Event) : Cache × List Event :=
  let r := check_endpoint_capabilities cache name now window probe
  if r.2.1 = false then
    (r.1, nonstreamEvents)
  else
    match attempt with
    | StreamAttempt.ok events => (r.1, events)
    | StreamAttempt.failed preFailEvents =>
        (downgradeCache r.1 name now, preFailEvents ++ fallbackEvents)

/-- The body of `regenerate_message.generate` (`src/chatbot/main.py` lines
295-340) as a function from the capability-cache state and the turn's scenario
to the final cache state and the emitted event sequence.  The capability check
runs first (line 298), then the payload is built (lines 299-305); an
`IndexError` there aborts the generator before anything is yielded.  On the
streaming path the source yields the handler's events only under
`if response.status_code == 200:`; there is no else-branch, no except-clause,
no downgrade and no fallback, so any other open status ends the generator with
nothing yielded. -/
def regenGenerateRun (cache : Cache) (name : String) (now window : Nat)
    (probe : Option (Bool × Bool)) (history_up_to_message : List Msg)
    (include_history : Bool) (open_status : Nat)
    (streamEvents nonstreamEvents : List Event) : Cache × List Event :=
  let r := check_endpoint_capabilities cache name now window probe
  match regenRequestMessages history_up_to_message include_history with
  | Except.error _ => (r.1, [])
  | Except.ok _ =>
      if r.2.1 = true then
        if open_status = 200 then (r.1, streamEvents) else (r.1, [])
      else
        (r.1, nonstreamEvents)

/-- The events of `chat`'s `error_generate` (`src/chatbot/main.py` lines
215-217): the JSON-encoded error message, then the terminal done event. -/
def error_generate (errJson : String) : List Event :=
  [Event.data errJson, Event.done]

/-- Admission and downstream actions a turn performs, in order. -/
inductive Action where
  | semAcquire
  | semRelease
  | streamOpen
  | nonStreamCall
  | fallbackNonStreamCall
deriving DecidableEq, Repr

/-- The admission/downstream action trace of `chat.generate`
(`src/chatbot/main.py` lines 141-192): without streaming support the
non-streaming call runs with no semaphore interaction; with streaming support
the whole attempt — including the except-clause's fallback non-streaming call —
sits inside `async with streaming_semaphore`. -/
def chatGenerateActions (supports_streaming stream_failed : Bool) : List Action :=
  if supports_streaming = false then
    [Action.nonStreamCall]
  else if stream_failed then
    [Action.semAcquire, Action.streamOpen, Action.fallbackNonStreamCall, Action.semRelease]
  else
    [Action.semAcquire, Action.streamOpen, Action.semRelease]

/-- The admission/downstream action trace of `regenerate_message.generate`
(`src/chatbot/main.py` lines 315-340): the semaphore wraps the streaming
connection only; the non-streaming branch never touches it. -/
def regenGenerateActions (supports_streaming : Bool) : List Action :=
  if supports_streaming then
    [Action.semAcquire, Action.streamOpen, Action.semRelease]
  else
    [Action.nonStreamCall]

/-- Modelled from the spec: the streaming semaphore object is constructed in
`utils/dependencies.py`, which is not under `src/`.  Per spec sections 4.2 and
5 it is a FIFO-fair counting semaphore with N slots.  The state records the
slots currently held, the FIFO queue of waiting task ids, and logs of arrivals
and grants in order. -/
structure SemState where
  holding : Nat
  queue : List Nat
  arrivals : List Nat
  grants : List Nat
deriving DecidableEq, Repr

/-- A semaphore transition: a task arrives and enqueues, the head waiter is
granted a slot, or a held slot is released. -/
inductive SemEvent where
  | arrive (t : Nat)
  | grant
  | release
deriving DecidableEq, Repr

/-- The initial semaphore state: no holders, no waiters. -/
def semInit : SemState :=
  { holding := 0, queue := [], arrivals := [], grants := [] }

/-- Modelled from the spec: one step of the FIFO counting semaphore with `N`
slots.  A grant is only possible for the head of the waiter queue and only
while fewer than `N` slots are held; a release requires a held slot. -/
def semStep (N : Nat) (s : SemState) (e : SemEvent) : Option SemState :=
  match e with
  | SemEvent.arrive t =>
      some { s with queue := s.queue ++ [t], arrivals := s.arrivals ++ [t] }
  | SemEvent.grant =>
      match s.queue with
      | [] => none
      | t :: rest =>
          if s.holding < N then
            some { s with holding := s.holding + 1, queue := rest, grants := s.grants ++ [t] }
          else none
  | SemEvent.release =>
      if 0 < s.holding then some { s with holding := s.holding - 1 } else none

/-- Run a sequence of semaphore events from a state. -/
def semRun (N : Nat) (s : SemState) : List SemEvent → Option SemState
  | [] => some s
  | e :: es =>
      match semStep N s e with
      | none => none
      | some s1 => semRun N s1 es

/-! ### Helper lemmas on the capability cache -/

theorem lookupEntry_cons (k : String) (v : CapEntry) (t : Cache) (name : String) :
    lookupEntry ((k, v) :: t) name = if k = name then some v else lookupEntry t name := by
  by_cases h : k = name
  · simp [lookupEntry, List.find?_cons_of_pos, h]
  · simp [lookupEntry, List.find?_cons_of_neg, h]

theorem cacheContains_eq_isSome (cache : Cache) (name : String) :
    cacheContains cache name = (lookupEntry cache name).isSome := by
  induction cache with
  | nil => rfl
  | cons p t ih =>
      obtain ⟨k, v⟩ := p
      by_cases h : k = name
      · simp [cacheContains, lookupEntry_cons, h]
      · simpa [cacheContains, lookupEntry_cons, h] using ih

theorem lookupEntry_map_downgrade (cache : Cache) (name : String) (now : Nat) :
    lookupEntry
      (cache.map (fun p =>
        if p.1 = name then
          (p.1, { p.2 with supports_streaming := false, last_checked := now })
        else p)) name
      = (lookupEntry cache name).map
          (fun e => { e with supports_streaming := false, last_checked := now }) := by
  induction cache with
  | nil => rfl
  | cons p t ih =>
      obtain ⟨k, v⟩ := p
      by_cases h : k = name
      · simp [lookupEntry_cons, h]
      · simpa [lookupEntry_cons, h] using ih

theorem lookupEntry_map_set (cache : Cache) (name : String) (e : CapEntry) :
    lookupEntry (cache.map (fun p => if p.1 = name then (p.1, e) else p)) name
      = (lookupEntry cache name).map (fun _ => e) := by
  induction cache with
  | nil => rfl
  | cons p t ih =>
      obtain ⟨k, v⟩ := p
      by_cases h : k = name
      · simp [lookupEntry_cons, h]
      · simpa [lookupEntry_cons, h] using ih

theorem lookupEntry_append_single (cache : Cache) (name : String) (e : CapEntry)
    (h : cacheContains cache name = false) :
    lookupEntry (cache ++ [(name, e)]) name = some e := by
  induction cache with
  | nil => simp [lookupEntry_cons]
  | cons p t ih =>
      obtain ⟨k, v⟩ := p
      by_cases hk : k = name
      · simp [cacheContains, hk] at h
      · rw [List.cons_append, lookupEntry_cons, if_neg hk]
        refine ih ?_
        simpa [cacheContains, hk] using h

theorem lookupEntry_setEntry_self (cache : Cache) (name : String) (e : CapEntry) :
    lookupEntry (setEntry cache name e) name = some e := by
  unfold setEntry
  by_cases h : cacheContains cache name = true
  · rw [if_pos h, lookupEntry_map_set]
    rw [cacheContains_eq_isSome] at h
    obtain ⟨v, hv⟩ := Option.isSome_iff_exists.mp h
    simp [hv]
  · rw [if_neg h]
    exact lookupEntry_append_single cache name e (by simpa using h)

theorem downgradeCache_of_not_mem (cache : Cache) (name : String) (now : Nat)
    (h : cacheContains cache name = false) :
    downgradeCache cache name now = cache := by
  unfold downgradeCache
  simp [h]

theorem lookupEntry_downgradeCache_of_mem (cache : Cache) (name : String) (now : Nat)
    (e : CapEntry) (h : lookupEntry cache name = some e) :
    lookupEntry (downgradeCache cache name now) name
      = some { e with supports_streaming := false, last_checked := now } := by
  have hc : cacheContains cache name = true := by
    rw [cacheContains_eq_isSome, h]
    rfl
  unfold downgradeCache
  rw [if_pos hc, lookupEntry_map_downgrade, h]
  rfl

theorem check_of_lookup_fresh (cache : Cache) (name : String) (now window : Nat)
    (probe : Option (Bool × Bool)) (e : CapEntry)
    (h : lookupEntry cache name = some e) (hf : now - e.last_checked < window) :
    check_endpoint_capabilities cache name now window probe
      = (cache, e.supports_streaming, e.supports_trace) := by
  unfold check_endpoint_capabilities
  rw [h]
  simp [hf]

theorem check_lookup_isSome (cache : Cache) (name : String) (now window : Nat)
    (probe : Option (Bool × Bool)) :
    (lookupEntry (check_endpoint_capabilities cache name now window probe).1 name).isSome := by
  unfold check_endpoint_capabilities
  cases hl : lookupEntry cache name with
  | none => simp [lookupEntry_setEntry_self]
  | some e =>
      by_cases hf : now - e.last_checked < window
      · simp [hf, hl]
      · simp [hf, lookupEntry_setEntry_self]

/-! ### Claim theorems -/

/-- C1: the spec claims the fallback non-streaming request URL carries a
uniqueness query parameter whose value is freshly random and differs between
any two fallback requests.  In the source (`src/chatbot/main.py` line 187) the
string `"?nocache=\x7buuid.uuid4()\x7d"` is not an f-string, so the appended
query parameter is one fixed literal: the fallback URL is identical for any
two random draws. -/
theorem c1_fallback_url_constant (base : String) (r₁ r₂ : Nat) :
    fallbackUrl base r₁ = fallbackUrl base r₂ := by
  rfl

/-- C2: the spec claims a downstream HTTP 429 is surfaced as an error Message
that specifically names high-demand throttling.  In the source
(`src/chatbot/main.py` lines 204-213) the rate-limit string assigned for a 429
`HTTPStatusError` is immediately overwritten by the generic error content, so
the emitted content is the generic text and not the high-demand text. -/
theorem c2_rate_limit_message_overwritten :
    chatErrorContent ⟨true, 429, "Client error 429 Too Many Requests"⟩
        = "An error occurred while processing your request. Client error 429 Too Many Requests"
      ∧ chatErrorContent ⟨true, 429, "Client error 429 Too Many Requests"⟩ ≠ rateLimitText := by
  exact ⟨rfl, by decide⟩

/-- C3 counterexample: the claim says the failed-streaming downgrade sets the
cache entry to `supports_streaming = false` regardless of whether an entry for
the endpoint already exists.  On a cache with no entry for the endpoint, the
source's `if SERVING_ENDPOINT_NAME in streaming_support_cache['endpoints']`
guard makes the downgrade a no-op: afterwards there is still no entry at all,
in particular none with `supports_streaming = false`. -/
theorem c3_counterexample :
    lookupEntry (downgradeCache [] "databricks-endpoint" 7) "databricks-endpoint" = none := by
  rfl

/-- C3 amended: after a failed streaming attempt the cache entry is set to
`supports_streaming = false` with `last_checked = now` provided an entry for
the endpoint exists — which holds whenever the turn's preceding capability
check ran, since that check stores an entry on a miss — and any query within
the freshness window then reports `supports_streaming = false`. -/
theorem c3_downgrade_after_check (cache : Cache) (name : String)
    (now window now₂ : Nat) (probe probe₂ : Option (Bool × Bool))
    (hfresh : now₂ - now < window) :
    ∃ e, lookupEntry
        (downgradeCache (check_endpoint_capabilities cache name now window probe).1 name now)
        name = some e
      ∧ e.supports_streaming = false
      ∧ e.last_checked = now
      ∧ (check_endpoint_capabilities
          (downgradeCache (check_endpoint_capabilities cache name now window probe).1 name now)
          name now₂ window probe₂).2.1 = false := by
  obtain ⟨E, hE⟩ := Option.isSome_iff_exists.mp
    (check_lookup_isSome cache name now window probe)
  have hdg := lookupEntry_downgradeCache_of_mem
    (check_endpoint_capabilities cache name now window probe).1 name now E hE
  refine ⟨_, hdg, rfl, rfl, ?_⟩
  rw [check_of_lookup_fresh _ name now₂ window probe₂ _ hdg (by simpa using hfresh)]

/-- C3 amended, witness: on the empty cache with the endpoint name
`"ep"`, probing at instant 5 with a 300-second window, the downgraded entry
reports `supports_streaming = false` from instant 6. -/
theorem c3_downgrade_after_check_witness :
    ∃ e, lookupEntry
        (downgradeCache (check_endpoint_capabilities [] "ep" 5 300 none).1 "ep" 5)
        "ep" = some e
      ∧ e.supports_streaming = false
      ∧ e.last_checked = 5
      ∧ (check_endpoint_capabilities
          (downgradeCache (check_endpoint_capabilities [] "ep" 5 300 none).1 "ep" 5)
          "ep" 6 300 none).2.1 = false :=
  c3_downgrade_after_check [] "ep" 5 300 6 none none (by decide)

/-- C9: when `update_message_rating` returns false, `rate_message` raises
`HTTPException(404)` inside its own try-block, and its generic
`except Exception` clause re-wraps it as an `HTTPException(500)` whose detail
embeds the original 404 text; the client sees status 500, not 404. -/
theorem c9_rate_message_wraps_404_as_500 (message_id rating : String) :
    ∃ e, rate_message false message_id rating = Except.error e
      ∧ e.status_code = 500
      ∧ e.status_code ≠ 404
      ∧ e.detail = "An error occurred while rating the message. "
          ++ httpErrorStr ⟨404, "Message " ++ message_id ++ " not found"⟩ := by
  refine ⟨_, rfl, rfl, ?_, rfl⟩
  show (500 : Nat) ≠ 404
  decide

/-! ### Helper lemmas on event streams -/

theorem countDone_append (a b : List Event) :
    countDone (a ++ b) = countDone a + countDone b := by
  simp [countDone, List.count_append]

theorem ne_nil_of_terminatesOnce {l : List Event} (h : terminatesOnce l) : l ≠ [] := by
  intro hnil
  rw [hnil] at h
  exact Option.noConfusion h.2

theorem terminatesOnce_append {a b : List Event} (h1 : countDone a = 0)
    (h2 : terminatesOnce b) : terminatesOnce (a ++ b) := by
  constructor
  · rw [countDone_append, h1, h2.1]
  · rw [List.getLast?_append_of_ne_nil _ (ne_nil_of_terminatesOnce h2)]
    exact h2.2

/-- C4 counterexample: the claim says every client stream — including a
regeneration streaming connection opening with a non-200 status — ends with
exactly one `event: done`.  At a fresh cache entry with streaming support and
a regeneration stream opening with status 503, `regenerate_message.generate`
yields nothing at all, so the stream contains no done event. -/
theorem c4_counterexample :
    ¬ terminatesOnce
        (regenGenerateRun [("ep", ⟨true, false, 10⟩)] "ep" 10 300 none
          [⟨"m1", "user", "hi", some "t1"⟩] true 503
          [Event.data "chunk", Event.done] [Event.data "full", Event.done]).2 := by
  decide

/-- C4 amended: the chat endpoint's streams — the error path, the
non-streaming path, the streaming path, and the fallback after a failed
streaming attempt — end with exactly one `event: done`, assuming the
(spec-modelled, outside `src/`) streaming handlers emit streams that end with
exactly one done and a failed attempt never emitted a done before failing.
Regeneration streams end with exactly one done on the non-streaming and
streaming-success paths only; a regeneration streaming connection opening with
a non-200 status yields no events at all, in particular no done event. -/
theorem c4_done_termination (errJson : String) (cache : Cache) (name : String)
    (now window : Nat) (probe : Option (Bool × Bool)) (attempt : StreamAttempt)
    (ne fe se : List Event) (hist : List Msg) (inc : Bool) (status : Nat)
    (hne : terminatesOnce ne) (hfe : terminatesOnce fe) (hse : terminatesOnce se)
    (hok : ∀ ev, attempt = StreamAttempt.ok ev → terminatesOnce ev)
    (hpre : ∀ pre, attempt = StreamAttempt.failed pre → countDone pre = 0) :
    terminatesOnce (error_generate errJson)
      ∧ terminatesOnce (chatGenerateRun cache name now window probe attempt ne fe).2
      ∧ ((check_endpoint_capabilities cache name now window probe).2.1 = false → hist ≠ [] →
          terminatesOnce (regenGenerateRun cache name now window probe hist inc status se ne).2)
      ∧ ((check_endpoint_capabilities cache name now window probe).2.1 = true → hist ≠ [] →
          status = 200 →
          terminatesOnce (regenGenerateRun cache name now window probe hist inc status se ne).2)
      ∧ ((check_endpoint_capabilities cache name now window probe).2.1 = true → status ≠ 200 →
          (regenGenerateRun cache name now window probe hist inc status se ne).2 = []) := by
  refine ⟨⟨rfl, rfl⟩, ?_, ?_, ?_, ?_⟩
  · by_cases hss : (check_endpoint_capabilities cache name now window probe).2.1 = false
    · simpa [chatGenerateRun, hss] using hne
    · cases attempt with
      | ok ev =>
          simpa [chatGenerateRun, hss] using hok ev rfl
      | failed pre =>
          simpa [chatGenerateRun, hss] using terminatesOnce_append (hpre pre rfl) hfe
  · intro hss hhist
    cases hgl : hist.getLast? with
    | none => exact absurd (List.getLast?_eq_none_iff.mp hgl) hhist
    | some lastm =>
        simpa [regenGenerateRun, regenRequestMessages, hgl, hss] using hne
  · intro hss hhist h200
    cases hgl : hist.getLast? with
    | none => exact absurd (List.getLast?_eq_none_iff.mp hgl) hhist
    | some lastm =>
        simpa [regenGenerateRun, regenRequestMessages, hgl, hss, h200] using hse
  · intro hss hstatus
    cases hgl : hist.getLast? with
    | none => simp [regenGenerateRun, regenRequestMessages, hgl]
    | some lastm => simp [regenGenerateRun, regenRequestMessages, hgl, hss, hstatus]

/-- C4 amended, witness: a concrete failed chat streaming attempt followed by
a fallback, with handlers that end in exactly one done event. -/
theorem c4_done_termination_witness :
    terminatesOnce (error_generate "err")
      ∧ terminatesOnce
          (chatGenerateRun [("ep", ⟨true, false, 10⟩)] "ep" 10 300 none
            (StreamAttempt.failed [Event.data "p"])
            [Event.data "n", Event.done] [Event.data "f", Event.done]).2
      ∧ ((check_endpoint_capabilities [("ep", ⟨true, false, 10⟩)] "ep" 10 300 none).2.1 = false →
          ([⟨"m1", "user", "hi", some "t1"⟩] : List Msg) ≠ [] →
          terminatesOnce
            (regenGenerateRun [("ep", ⟨true, false, 10⟩)] "ep" 10 300 none
              [⟨"m1", "user", "hi", some "t1"⟩] true 200
              [Event.data "s", Event.done] [Event.data "n", Event.done]).2)
      ∧ ((check_endpoint_capabilities [("ep", ⟨true, false, 10⟩)] "ep" 10 300 none).2.1 = true →
          ([⟨"m1", "user", "hi", some "t1"⟩] : List Msg) ≠ [] → (200 : Nat) = 200 →
          terminatesOnce
            (regenGenerateRun [("ep", ⟨true, false, 10⟩)] "ep" 10 300 none
              [⟨"m1", "user", "hi", some "t1"⟩] true 200
              [Event.data "s", Event.done] [Event.data "n", Event.done]).2)
      ∧ ((check_endpoint_capabilities [("ep", ⟨true, false, 10⟩)] "ep" 10 300 none).2.1 = true →
          (200 : Nat) ≠ 200 →
          (regenGenerateRun [("ep", ⟨true, false, 10⟩)] "ep" 10 300 none
            [⟨"m1", "user", "hi", some "t1"⟩] true 200
            [Event.data "s", Event.done] [Event.data "n", Event.done]).2 = []) :=
  c4_done_termination "err" [("ep", ⟨true, false, 10⟩)] "ep" 10 300 none
    (StreamAttempt.failed [Event.data "p"])
    [Event.data "n", Event.done] [Event.data "f", Event.done]
    [Event.data "s", Event.done]
    [⟨"m1", "user", "hi", some "t1"⟩] true 200
    (by decide) (by decide) (by decide)
    (by intro ev h; cases h)
    (by intro pre h; cases h; decide)

/-- C6: a turn acquires the streaming semaphore exactly when it attempts the
streaming path: with `supports_streaming = false` both endpoints issue their
non-streaming call with no semaphore interaction, and with
`supports_streaming = true` the action trace starts by acquiring the slot and
ends by releasing it (in the chat endpoint the fallback non-streaming call of
a failed attempt also runs while the slot is held, which the claim permits). -/
theorem c6_semaphore_iff_streaming_path :
    ∀ ss sf : Bool,
      ((Action.semAcquire ∈ chatGenerateActions ss sf) ↔ ss = true)
      ∧ (ss = false → chatGenerateActions ss sf = [Action.nonStreamCall])
      ∧ (ss = true → (chatGenerateActions ss sf).head? = some Action.semAcquire
            ∧ (chatGenerateActions ss sf).getLast? = some Action.semRelease)
      ∧ ((Action.semAcquire ∈ regenGenerateActions ss) ↔ ss = true)
      ∧ (ss = false → regenGenerateActions ss = [Action.nonStreamCall])
      ∧ (ss = true → regenGenerateActions ss
            = [Action.semAcquire, Action.streamOpen, Action.semRelease]) := by
  decide

/-- C6 witness: a streaming turn's trace contains the acquire, and a
non-streaming turn's trace is the bare downstream call. -/
theorem c6_semaphore_witness :
    (Action.semAcquire ∈ chatGenerateActions true true)
      ∧ chatGenerateActions false false = [Action.nonStreamCall] :=
  ⟨(c6_semaphore_iff_streaming_path true true).1.mpr rfl,
   (c6_semaphore_iff_streaming_path false false).2.1 rfl⟩

/-! ### Helper lemmas on truncated histories -/

theorem mem_take_exists_getElem {l : List Msg} {i : Nat} {m : Msg}
    (h : m ∈ l.take i) : ∃ j, j < i ∧ l[j]? = some m := by
  obtain ⟨j, hj⟩ := List.mem_iff_getElem?.mp h
  have hji : j < i := by
    by_contra hge
    have hlen : (l.take i).length ≤ j := by
      rw [List.length_take]
      exact le_trans (min_le_left i l.length) (Nat.le_of_not_lt hge)
    rw [List.getElem?_eq_none hlen] at hj
    exact Option.noConfusion hj
  refine ⟨j, hji, ?_⟩
  rw [← List.getElem?_take_of_lt hji]
  exact hj

/-- C5: regenerating a message `M` found at index `i` of the session history
builds a downstream payload whose every element takes its content from a
message strictly before `M`, whose final element is the last message of the
truncated history sent with role `"user"` (so, when that message is a user
message, the payload ends with the final user message of the truncated
history), and the regenerated message is persisted with `M`'s original
timestamp whenever `M` carries one. -/
theorem c5_regen_context_and_timestamp (h : List Msg) (mid : String) (i : Nat)
    (inc : Bool) (orig lastm : Msg) (ts nowIso content : String)
    (hidx : messageIndex h mid = some i)
    (horig : h[i]? = some orig)
    (hlast : (h.take i).getLast? = some lastm)
    (hrole : lastm.role = "user")
    (hts : orig.timestamp = some ts) :
    ∃ L, regenRequestMessages (h.take i) inc = Except.ok L
      ∧ (∀ p ∈ L, ∃ j, j < i ∧ ∃ m, h[j]? = some m ∧ p.2 = m.content)
      ∧ L.getLast? = some (lastm.role, lastm.content)
      ∧ (persistRegeneratedMessage mid content
          (regenOriginalTimestamp orig nowIso)).timestamp = some ts := by
  have hmem_last : lastm ∈ h.take i := by
    have hd := List.dropLast_append_getLast? lastm hlast
    rw [← hd]
    exact List.mem_append_right _ (List.mem_singleton.mpr rfl)
  have hL : regenRequestMessages (h.take i) inc
      = Except.ok
          ((if inc then (h.take i).dropLast.map (fun m => (m.role, m.content)) else [])
            ++ [("user", lastm.content)]) := by
    unfold regenRequestMessages
    rw [hlast]
  refine ⟨_, hL, ?_, ?_, ?_⟩
  · intro p hp
    rcases List.mem_append.mp hp with hp1 | hp2
    · cases inc with
      | false => simp at hp1
      | true =>
          simp only [if_pos] at hp1
          obtain ⟨m, hm, hpm⟩ := List.mem_map.mp hp1
          obtain ⟨j, hj, hjm⟩ := mem_take_exists_getElem (List.dropLast_subset _ hm)
          exact ⟨j, hj, m, hjm, by rw [← hpm]⟩
    · have hp2' : p = ("user", lastm.content) := List.mem_singleton.mp hp2
      obtain ⟨j, hj, hjm⟩ := mem_take_exists_getElem hmem_last
      exact ⟨j, hj, lastm, hjm, by rw [hp2']⟩
  · rw [List.getLast?_concat, hrole]
  · simp [persistRegeneratedMessage, regenOriginalTimestamp, hts]

/-- C5 witness: Scenario D shape — a five-message history, regenerating the
fourth (assistant) message `m4`: the truncated history is the first three
messages, it ends with the user message `m3`, and the persisted regenerated
message carries `m4`'s original timestamp `t4`. -/
theorem c5_regen_witness :
    ∃ L, regenRequestMessages
        (([⟨"m1", "user", "Q1", some "t1"⟩, ⟨"m2", "assistant", "A1", some "t2"⟩,
           ⟨"m3", "user", "Q2", some "t3"⟩, ⟨"m4", "assistant", "A2", some "t4"⟩,
           ⟨"m5", "user", "Q3", some "t5"⟩] : List Msg).take 3) true = Except.ok L
      ∧ (∀ p ∈ L, ∃ j, j < 3 ∧ ∃ m,
          ([⟨"m1", "user", "Q1", some "t1"⟩, ⟨"m2", "assistant", "A1", some "t2"⟩,
            ⟨"m3", "user", "Q2", some "t3"⟩, ⟨"m4", "assistant", "A2", some "t4"⟩,
            ⟨"m5", "user", "Q3", some "t5"⟩] : List Msg)[j]? = some m ∧ p.2 = m.content)
      ∧ L.getLast? = some ((⟨"m3", "user", "Q2", some "t3"⟩ : Msg).role,
          (⟨"m3", "user", "Q2", some "t3"⟩ : Msg).content)
      ∧ (persistRegeneratedMessage "m4" "regenerated answer"
          (regenOriginalTimestamp ⟨"m4", "assistant", "A2", some "t4"⟩ "2026-01-01")).timestamp
          = some "t4" :=
  c5_regen_context_and_timestamp
    [⟨"m1", "user", "Q1", some "t1"⟩, ⟨"m2", "assistant", "A1", some "t2"⟩,
     ⟨"m3", "user", "Q2", some "t3"⟩, ⟨"m4", "assistant", "A2", some "t4"⟩,
     ⟨"m5", "user", "Q3", some "t5"⟩]
    "m4" 3 true ⟨"m4", "assistant", "A2", some "t4"⟩ ⟨"m3", "user", "Q2", some "t3"⟩
    "t4" "2026-01-01" "regenerated answer"
    (by decide) (by decide) (by decide) (by decide) (by decide)

/-- C7 counterexample: the claim says a regeneration streaming failure runs
the same state machine as a new-message turn — downgrading the capability
cache and re-submitting the request as a non-streaming fallback whose content
is emitted.  With a fresh cache entry reporting streaming support and the
regeneration stream opening with status 503, the generator yields no events
and the cache entry still reports `supports_streaming = true`: neither a
downgrade nor a fallback happens. -/
theorem c7_counterexample :
    (regenGenerateRun [("ep", ⟨true, true, 10⟩)] "ep" 10 300 none
        [⟨"m1", "user", "hi", some "t1"⟩] true 503
        [Event.data "chunk", Event.done] [Event.data "full", Event.done])
      = ([("ep", ⟨true, true, 10⟩)], [])
    ∧ lookupEntry
        (regenGenerateRun [("ep", ⟨true, true, 10⟩)] "ep" 10 300 none
          [⟨"m1", "user", "hi", some "t1"⟩] true 503
          [Event.data "chunk", Event.done] [Event.data "full", Event.done]).1 "ep"
      = some ⟨true, true, 10⟩ := by
  exact ⟨rfl, rfl⟩

/-- C7 amended: a regeneration turn whose streaming connection opens with a
non-success status performs no downgrade and no fallback — the generator
returns the post-capability-check cache unchanged and emits nothing — whereas
the chat endpoint's failed streaming attempt downgrades the cache entry and
emits the fallback handler's events. -/
theorem c7_regen_failure_no_downgrade_no_fallback (cache : Cache) (name : String)
    (now window : Nat) (probe : Option (Bool × Bool)) (hist : List Msg) (inc : Bool)
    (status : Nat) (se ne : List Event) (pre fe : List Event)
    (hss : (check_endpoint_capabilities cache name now window probe).2.1 = true)
    (hstatus : status ≠ 200) :
    regenGenerateRun cache name now window probe hist inc status se ne
        = ((check_endpoint_capabilities cache name now window probe).1, [])
      ∧ chatGenerateRun cache name now window probe (StreamAttempt.failed pre) ne fe
        = (downgradeCache (check_endpoint_capabilities cache name now window probe).1 name now,
            pre ++ fe) := by
  constructor
  · cases hb : regenRequestMessages hist inc with
    | error msg => simp [regenGenerateRun, hb]
    | ok L => simp [regenGenerateRun, hb, hss, hstatus]
  · simp [chatGenerateRun, hss]

/-- C7 amended, witness: a concrete fresh entry with streaming support and a
503 regeneration open status. -/
theorem c7_regen_failure_witness :
    regenGenerateRun [("ep", ⟨true, true, 10⟩)] "ep" 10 300 none
        [⟨"m2", "user", "hey", some "t2"⟩] false 503
        [Event.data "c", Event.done] [Event.data "f", Event.done]
      = ((check_endpoint_capabilities [("ep", ⟨true, true, 10⟩)] "ep" 10 300 none).1, [])
    ∧ chatGenerateRun [("ep", ⟨true, true, 10⟩)] "ep" 10 300 none
        (StreamAttempt.failed [Event.data "q"])
        [Event.data "f", Event.done] [Event.data "g", Event.done]
      = (downgradeCache
          (check_endpoint_capabilities [("ep", ⟨true, true, 10⟩)] "ep" 10 300 none).1 "ep" 10,
          [Event.data "q"] ++ [Event.data "g", Event.done]) :=
  c7_regen_failure_no_downgrade_no_fallback [("ep", ⟨true, true, 10⟩)] "ep" 10 300 none
    [⟨"m2", "user", "hey", some "t2"⟩] false 503
    [Event.data "c", Event.done] [Event.data "f", Event.done]
    [Event.data "q"] [Event.data "g", Event.done]
    (by decide) (by decide)

/-! ### Helper lemmas on the admission semaphore -/

theorem semStep_inv (N : Nat) (s s' : SemState) (e : SemEvent)
    (hstep : semStep N s e = some s')
    (h1 : s.holding ≤ N) (h2 : s.grants ++ s.queue = s.arrivals) :
    s'.holding ≤ N ∧ s'.grants ++ s'.queue = s'.arrivals := by
  cases e with
  | arrive t =>
      simp only [semStep, Option.some.injEq] at hstep
      subst hstep
      refine ⟨h1, ?_⟩
      simp only [← List.append_assoc, h2]
  | grant =>
      cases hq : s.queue with
      | nil => simp [semStep, hq] at hstep
      | cons t rest =>
          by_cases hh : s.holding < N
          · simp only [semStep, hq, if_pos hh, Option.some.injEq] at hstep
            subst hstep
            refine ⟨hh, ?_⟩
            simp only [List.append_assoc, List.singleton_append]
            rw [← hq]
            exact h2
          · simp [semStep, hq, hh] at hstep
  | release =>
      by_cases h0 : 0 < s.holding
      · simp only [semStep, if_pos h0, Option.some.injEq] at hstep
        subst hstep
        exact ⟨le_trans (Nat.sub_le _ _) h1, h2⟩
      · simp [semStep, h0] at hstep

theorem semRun_inv (N : Nat) : ∀ (es : List SemEvent) (s s' : SemState),
    semRun N s es = some s' → s.holding ≤ N → s.grants ++ s.queue = s.arrivals →
    s'.holding ≤ N ∧ s'.grants ++ s'.queue = s'.arrivals := by
  intro es
  induction es with
  | nil =>
      intro s s' hrun h1 h2
      simp only [semRun, Option.some.injEq] at hrun
      subst hrun
      exact ⟨h1, h2⟩
  | cons e es ih =>
      intro s s' hrun h1 h2
      cases hstep : semStep N s e with
      | none => simp [semRun, hstep] at hrun
      | some s1 =>
          simp only [semRun, hstep] at hrun
          obtain ⟨g1, g2⟩ := semStep_inv N s s1 e hstep h1 h2
          exact ih s1 s' hrun g1 g2

/-- C8: in the FIFO counting-semaphore model of the streaming admission slot
(spec-modelled: the semaphore object is built in `utils/dependencies.py`,
outside `src/`), every state reachable from the initial state holds at most
`N` slots at once, and the log of granted tasks extended by the remaining
queue equals the log of arrivals — i.e. slots are granted exactly in FIFO
order of arrival. -/
theorem c8_admission_bound_and_fifo (N : Nat) (es : List SemEvent) (s : SemState)
    (hrun : semRun N semInit es = some s) :
    s.holding ≤ N ∧ s.grants ++ s.queue = s.arrivals :=
  semRun_inv N es semInit s hrun (Nat.zero_le N) rfl

/-- C8 witness: three tasks arrive at a two-slot semaphore; two grants, one
release and a third grant leave two slots held and the grant log `[1, 2, 3]`
equal to the arrival order. -/
theorem c8_admission_witness :
    (SemState.mk 2 [] [1, 2, 3] [1, 2, 3]).holding ≤ 2
      ∧ (SemState.mk 2 [] [1, 2, 3] [1, 2, 3]).grants
          ++ (SemState.mk 2 [] [1, 2, 3] [1, 2, 3]).queue
        = (SemState.mk 2 [] [1, 2, 3] [1, 2, 3]).arrivals :=
  c8_admission_bound_and_fifo 2
    [SemEvent.arrive 1, SemEvent.arrive 2, SemEvent.arrive 3,
     SemEvent.grant, SemEvent.grant, SemEvent.release, SemEvent.grant]
    (SemState.mk 2 [] [1, 2, 3] [1, 2, 3]) (by decide)

/-- C10: regenerating the first message of a session (empty truncated
history), with `include_history` true or false, makes the payload construction
index the empty list with `[-1]`, raising `IndexError`; the generator then
yields no content event and no terminal event, so successful regeneration
implicitly requires at least one message before the target. -/
theorem c10_regen_empty_history_index_error (inc : Bool) (cache : Cache)
    (name : String) (now window status : Nat) (probe : Option (Bool × Bool))
    (se ne : List Event) :
    regenRequestMessages [] inc = Except.error "IndexError: list index out of range"
      ∧ (regenGenerateRun cache name now window probe [] inc status se ne).2 = []
      ∧ countDone (regenGenerateRun cache name now window probe [] inc status se ne).2 = 0
      ∧ ∀ (hist : List Msg) (L : List PayloadMsg),
          regenRequestMessages hist inc = Except.ok L → hist ≠ [] := by
  refine ⟨rfl, rfl, rfl, ?_⟩
  intro hist L hok hnil
  rw [hnil] at hok
  exact Except.noConfusion hok

/-- C10 witness: with an empty truncated history and `include_history = true`,
the regeneration generator emits nothing. -/
theorem c10_regen_empty_history_witness :
    (regenGenerateRun [] "ep" 0 300 none [] true 200
        [Event.data "s", Event.done] [Event.data "n", Event.done]).2 = [] :=
  (c10_regen_empty_history_index_error true [] "ep" 0 300 200 none
    [Event.data "s", Event.done] [Event.data "n", Event.done]).2.1

end Chatbot
